import Mathlib

/-!
Verification of the growatt-vpp-monitor core (src/api_server.py) against its
natural-language specification.

Shallow embedding conventions:
* Python floats are modelled as exact rationals (ℚ).
* A `Sample` carries its timestamp as seconds since local midnight of the
  target date (`ts : ℕ`); the read path (`read_csv_data`) filters samples to a
  single calendar date, so `t1.hour` in the source corresponds to `ts / 3600`
  and sorting ISO timestamp strings of one date agrees with sorting `ts`.
* Python's built-in `round` (banker's rounding, round-half-to-even) is
  modelled exactly by `roundHalfEven` / `roundTo`.
* `sortSamples` is a stable insertion sort keyed on the timestamp, matching
  the stability guarantee of `list.sort(key=...)` in the source.
-/

/-- One polled reading, as written/read by `log_to_csv` / `read_csv_data`. -/
structure Sample where
  ts : ℕ
  solar : ℚ
  load : ℚ
  grid_export : ℚ
  grid_import : ℚ
  battery_charge : ℚ
  battery_discharge : ℚ
  battery_net : ℚ
  soc_inv : ℤ
  soc_bms : ℤ
deriving DecidableEq

/-- Insert keeping existing order among equal keys (stability of Python sort). -/
def insertByTs (x : Sample) : List Sample → List Sample
  | [] => [x]
  | y :: ys => if x.ts ≤ y.ts then x :: y :: ys else y :: insertByTs x ys

/-- `data_points.sort(key=lambda x: x["timestamp"])` — stable sort by timestamp. -/
def sortSamples : List Sample → List Sample
  | [] => []
  | x :: xs => insertByTs x (sortSamples xs)

/-- Consecutive pairs `(s[i], s[i+1])` walked by the aggregation loops. -/
def consecutivePairs (l : List Sample) : List (Sample × Sample) := l.zip l.tail

/-- `(t2 - t1).total_seconds()` for a pair of same-date samples. -/
def intervalSec (p : Sample × Sample) : ℤ := (p.2.ts : ℤ) - (p.1.ts : ℤ)

/-- `t1.hour` for a sample on the target date (seconds-of-day / 3600). -/
def hourOf (s : Sample) : ℕ := s.ts / 3600

/-- Python's round-half-to-even on a rational, to an integer.
(`Rat.floor` is used rather than `⌊·⌋` so the definition kernel-evaluates;
they agree by `Rat.floor_def`.) -/
def roundHalfEven (q : ℚ) : ℤ :=
  let f : ℤ := q.floor
  let r : ℚ := q - (f : ℚ)
  if r < 1/2 then f
  else if 1/2 < r then f + 1
  else if f % 2 = 0 then f else f + 1

/-- Python's `round(q, d)` on exact rationals. -/
def roundTo (d : ℕ) (q : ℚ) : ℚ :=
  ((roundHalfEven (q * (10 : ℚ) ^ d) : ℤ) : ℚ) / (10 : ℚ) ^ d

/-- One entry of the 24-element list built by `calculate_hourly_totals`. -/
structure HourBucket where
  hour : ℕ
  solar_kwh : ℚ
  load_kwh : ℚ
  grid_export_kwh : ℚ
  grid_import_kwh : ℚ
  battery_charge_kwh : ℚ
  battery_discharge_kwh : ℚ
  count : ℕ
deriving DecidableEq

/-- The zero-initialised bucket for a given hour. -/
def emptyBucket (h : ℕ) : HourBucket :=
  { hour := h, solar_kwh := 0, load_kwh := 0, grid_export_kwh := 0
    grid_import_kwh := 0, battery_charge_kwh := 0, battery_discharge_kwh := 0
    count := 0 }

/-- The six `+=` statements of the hourly loop body (`ih` is `interval_hours`). -/
def addPairToBucket (b : HourBucket) (s : Sample) (ih : ℚ) : HourBucket :=
  { b with
    solar_kwh := b.solar_kwh + s.solar * ih
    load_kwh := b.load_kwh + s.load * ih
    grid_export_kwh := b.grid_export_kwh + s.grid_export * ih
    grid_import_kwh := b.grid_import_kwh + |s.grid_import| * ih
    battery_charge_kwh := b.battery_charge_kwh + s.battery_charge * ih
    battery_discharge_kwh := b.battery_discharge_kwh + s.battery_discharge * ih
    count := b.count + 1 }

/-- One iteration of the `calculate_hourly_totals` loop: skip the pair when
`interval_sec <= 0 or interval_sec > 600`, otherwise accumulate into the
bucket of the pair's start hour. -/
def stepHourly (acc : ℕ → HourBucket) (p : Sample × Sample) : ℕ → HourBucket :=
  if intervalSec p ≤ 0 ∨ 600 < intervalSec p then acc
  else
    fun h =>
      if hourOf p.1 = h then
        addPairToBucket (acc h) p.1 ((intervalSec p : ℚ) / 3600)
      else acc h

/-- Final `round(x, 3)` pass over a bucket. -/
def roundBucket (b : HourBucket) : HourBucket :=
  { b with
    solar_kwh := roundTo 3 b.solar_kwh
    load_kwh := roundTo 3 b.load_kwh
    grid_export_kwh := roundTo 3 b.grid_export_kwh
    grid_import_kwh := roundTo 3 b.grid_import_kwh
    battery_charge_kwh := roundTo 3 b.battery_charge_kwh
    battery_discharge_kwh := roundTo 3 b.battery_discharge_kwh }

/-- `calculate_hourly_totals` (src/api_server.py lines 763-841), with the
collection of `data_points` for the date abstracted as the input list. -/
def calculateHourlyTotals (l : List Sample) : List HourBucket :=
  let pts := sortSamples l
  if pts.length < 2 then (List.range 24).map emptyBucket
  else
    let acc := (consecutivePairs pts).foldl stepHourly emptyBucket
    (List.range 24).map (fun h => roundBucket (acc h))

/-- Accumulator of `calculate_daily_totals`' loop. -/
structure DailyAcc where
  solar : ℚ
  load : ℚ
  gexp : ℚ
  gimp : ℚ
  bchg : ℚ
  bdis : ℚ
  total_interval_sec : ℤ
  interval_count : ℕ
deriving DecidableEq

/-- One iteration of the `calculate_daily_totals` loop. -/
def stepDaily (a : DailyAcc) (p : Sample × Sample) : DailyAcc :=
  if intervalSec p ≤ 0 ∨ 600 < intervalSec p then a
  else
    let ih : ℚ := (intervalSec p : ℚ) / 3600
    { solar := a.solar + p.1.solar * ih
      load := a.load + p.1.load * ih
      gexp := a.gexp + p.1.grid_export * ih
      gimp := a.gimp + |p.1.grid_import| * ih
      bchg := a.bchg + p.1.battery_charge * ih
      bdis := a.bdis + p.1.battery_discharge * ih
      total_interval_sec := a.total_interval_sec + intervalSec p
      interval_count := a.interval_count + 1 }

/-- The result dictionary of `calculate_daily_totals`. -/
structure DailyTotals where
  solar_kwh : ℚ
  load_kwh : ℚ
  grid_export_kwh : ℚ
  grid_import_kwh : ℚ
  battery_charge_kwh : ℚ
  battery_discharge_kwh : ℚ
  count : ℕ
  avg_interval_sec : ℚ
deriving DecidableEq

/-- `calculate_daily_totals` (src/api_server.py lines 844-937), with the
collection of `data_points` for the date abstracted as the input list. -/
def calculateDailyTotals (l : List Sample) : DailyTotals :=
  let pts := sortSamples l
  if pts.length < 2 then
    { solar_kwh := 0, load_kwh := 0, grid_export_kwh := 0, grid_import_kwh := 0
      battery_charge_kwh := 0, battery_discharge_kwh := 0
      count := pts.length, avg_interval_sec := 0 }
  else
    let a := (consecutivePairs pts).foldl stepDaily
      { solar := 0, load := 0, gexp := 0, gimp := 0, bchg := 0, bdis := 0
        total_interval_sec := 0, interval_count := 0 }
    { solar_kwh := roundTo 2 a.solar
      load_kwh := roundTo 2 a.load
      grid_export_kwh := roundTo 2 a.gexp
      grid_import_kwh := roundTo 2 a.gimp
      battery_charge_kwh := roundTo 2 a.bchg
      battery_discharge_kwh := roundTo 2 a.bdis
      count := pts.length
      avg_interval_sec :=
        if 0 < a.interval_count then
          roundTo 1 ((a.total_interval_sec : ℚ) / (a.interval_count : ℚ))
        else 0 }

/-!
Per-pair contribution view of the aggregation loops (the statement of §4.3,
steps 3-5 of the spec, used to settle the claims about the aggregation engine).
-/

/-- The energy a single consecutive pair contributes to a channel `f`:
nothing when `Δt ≤ 0` or `Δt > 600`, else `f s[i] × Δt/3600`. -/
def pairEnergy (f : Sample → ℚ) (p : Sample × Sample) : ℚ :=
  if intervalSec p ≤ 0 ∨ 600 < intervalSec p then 0
  else f p.1 * ((intervalSec p : ℚ) / 3600)

/-- The contribution of a pair to the bucket of hour `h`: its `pairEnergy`
when the pair's start sample lies in hour `h`, else nothing. -/
def hourPairEnergy (f : Sample → ℚ) (h : ℕ) (p : Sample × Sample) : ℚ :=
  if hourOf p.1 = h then pairEnergy f p else 0

/-- Total energy attributed to hour `h` for channel `f` over the sorted input,
expressed as a sum of independent per-pair contributions. -/
def hourContribution (f : Sample → ℚ) (h : ℕ) (l : List Sample) : ℚ :=
  ((consecutivePairs (sortSamples l)).map (hourPairEnergy f h)).sum

/-- Concrete sample constructor used by witnesses (all other channels 0). -/
def mkSample (t : ℕ) (solar gexp gimp : ℚ) : Sample :=
  { ts := t, solar := solar, load := 0, grid_export := gexp, grid_import := gimp
    battery_charge := 0, battery_discharge := 0, battery_net := 0
    soc_inv := 0, soc_bms := 0 }

/-!
ZeroHero earnings engine (`ZEROHERO_CONFIG`, `get_fit_period`,
`calculate_today_earnings`, src/api_server.py lines 82-99, 349-365, 368-554).
The wall clock enters only through `is_today` and `now.hour`, modelled as the
parameters `isToday` and `nowHour`.
-/

def zerohero_day_credit : ℚ := 1
def zerohero_window_start : ℕ := 18
def zerohero_window_end : ℕ := 20
def zerohero_import_threshold : ℚ := 3/100
def super_export_rate : ℚ := 15/100
def super_export_limit : ℚ := 10

/-- `get_fit_period`: feed-in tariff period name and rate for an hour outside
the Super Export window. -/
def fitPeriod (hour : ℕ) : String × ℚ :=
  if hour = 16 ∨ hour = 17 ∨ hour = 20 then ("peak", 3/100)
  else if 10 ≤ hour ∧ hour < 14 then ("offpeak", 0)
  else ("shoulder", 3/1000)

/-- `current_hour = now.hour if is_today else 24`. -/
def currentHourOf (isToday : Bool) (nowHour : ℕ) : ℕ :=
  if isToday then nowHour else 24

/-- One iteration of the earnings accumulation loop (lines 432-453): skip the
pair when today's current hour is reached, or the interval is invalid; else
add export and |import| energy to the buckets of the start hour. -/
def stepFlows (isToday : Bool) (currentHour : ℕ) (acc : (ℕ → ℚ) × (ℕ → ℚ))
    (p : Sample × Sample) : (ℕ → ℚ) × (ℕ → ℚ) :=
  if isToday && decide (currentHour ≤ hourOf p.1) then acc
  else if intervalSec p ≤ 0 ∨ 600 < intervalSec p then acc
  else
    let ih : ℚ := (intervalSec p : ℚ) / 3600
    (fun x => if hourOf p.1 = x then acc.1 x + p.1.grid_export * ih else acc.1 x,
     fun x => if hourOf p.1 = x then acc.2 x + |p.1.grid_import| * ih else acc.2 x)

/-- `hourly_export` / `hourly_import` as functions from hour to kWh
(a defaultdict: unmentioned hours are 0). -/
def hourlyFlows (isToday : Bool) (currentHour : ℕ) (pts : List Sample) :
    (ℕ → ℚ) × (ℕ → ℚ) :=
  (consecutivePairs pts).foldl (stepFlows isToday currentHour)
    (fun _ => 0, fun _ => 0)

/-- `hourly_export` for a raw (unsorted) sample list. -/
def hourlyExportOf (isToday : Bool) (nowHour : ℕ) (l : List Sample) : ℕ → ℚ :=
  (hourlyFlows isToday (currentHourOf isToday nowHour) (sortSamples l)).1

/-- `hourly_import` for a raw (unsorted) sample list. -/
def hourlyImportOf (isToday : Bool) (nowHour : ℕ) (l : List Sample) : ℕ → ℚ :=
  (hourlyFlows isToday (currentHourOf isToday nowHour) (sortSamples l)).2

/-- `range(window_start, window_end)` = hours 18 and 19. -/
def windowHours : List ℕ :=
  List.range' zerohero_window_start (zerohero_window_end - zerohero_window_start)

/-- The window hours the qualification loop actually evaluates: it skips an
hour when `is_today and hour >= current_hour`. -/
def evaluatedHours (isToday : Bool) (currentHour : ℕ) : List ℕ :=
  windowHours.filter (fun h => !(isToday && decide (currentHour ≤ h)))

/-- `zerohero_window_complete` (lines 462-467). -/
def windowCompleteOf (isToday : Bool) (currentHour : ℕ) : Bool :=
  if isToday then decide (zerohero_window_end ≤ currentHour) else true

/-- `zerohero_qualified` after the hourly check loop (lines 470-483). -/
def qualifiedOf (isToday : Bool) (currentHour : ℕ) (hImp : ℕ → ℚ) : Bool :=
  (evaluatedHours isToday currentHour).all
    (fun h => decide (hImp h ≤ zerohero_import_threshold))

/-- `zerohero_status` (lines 486-497). -/
def statusOf (isToday : Bool) (currentHour : ℕ) (hImp : ℕ → ℚ) : String :=
  if isToday && !windowCompleteOf isToday currentHour then "pending"
  else if qualifiedOf isToday currentHour hImp then "qualified"
  else "not_qualified"

/-- `zerohero_credit` (lines 486-497). -/
def creditOf (isToday : Bool) (currentHour : ℕ) (hImp : ℕ → ℚ) : ℚ :=
  if isToday && !windowCompleteOf isToday currentHour then 0
  else if qualifiedOf isToday currentHour hImp then zerohero_day_credit
  else 0

/-- `super_export_kwh` (lines 500-504): export summed over the evaluated
window hours (the loop's skip condition is the same as the check loop's). -/
def superKwhOf (isToday : Bool) (currentHour : ℕ) (hExp : ℕ → ℚ) : ℚ :=
  ((evaluatedHours isToday currentHour).map hExp).sum

/-- `super_export_earnings = min(kwh, limit) * rate` (lines 506-507). -/
def superEarningsOf (isToday : Bool) (currentHour : ℕ) (hExp : ℕ → ℚ) : ℚ :=
  min (superKwhOf isToday currentHour hExp) super_export_limit * super_export_rate

/-- The hours the regular feed-in loop keeps (lines 513-519): not in the
Super Export window, and not a future hour of a partial day.  The source
iterates only over dict keys; absent hours carry 0 kWh, so summing over all
24 hours is the same sum. -/
def fitHoursOf (isToday : Bool) (currentHour : ℕ) : List ℕ :=
  (List.range 24).filter (fun h =>
    !(decide (zerohero_window_start ≤ h) && decide (h < zerohero_window_end))
      && !(isToday && decide (currentHour ≤ h)))

/-- `regular_fit_kwh` (lines 510-523). -/
def fitKwhOf (isToday : Bool) (currentHour : ℕ) (hExp : ℕ → ℚ) : ℚ :=
  ((fitHoursOf isToday currentHour).map hExp).sum

/-- `regular_fit_earnings` (lines 510-523). -/
def fitEarningsOf (isToday : Bool) (currentHour : ℕ) (hExp : ℕ → ℚ) : ℚ :=
  ((fitHoursOf isToday currentHour).map (fun h => hExp h * (fitPeriod h).2)).sum

/-- The earnings report dictionary.  `Option` marks keys that some branch
omits: the insufficient-data branch (lines 413-426) has neither an
`is_partial` nor a `current_hour` key (`none` here), while the full branch
(lines 529-554) always has both (`some` here; the inner `Option` of
`current_hour` is the JSON `null` for a non-partial day).  `zh_reason` is the
`"reason"` key present only in the insufficient-data branch. -/
structure EarningsReport where
  isPartialDay : Option Bool
  current_hour : Option (Option ℕ)
  total_export_kwh : ℚ
  zh_status : Option String
  zh_qualified : Bool
  zh_credit : ℚ
  zh_reason : Option String
  super_export_kwh : ℚ
  super_earnings : ℚ
  fit_export_kwh : ℚ
  fit_earnings : ℚ
  total_earnings : ℚ
  data_points : ℕ
deriving DecidableEq

/-- `calculate_today_earnings` (src/api_server.py lines 368-554), with the
collection of the date's `data_points` abstracted as the input list and the
wall clock as `isToday` / `nowHour`. -/
def calcEarnings (isToday : Bool) (nowHour : ℕ) (l : List Sample) :
    EarningsReport :=
  let ch := currentHourOf isToday nowHour
  if (sortSamples l).length < 2 then
    { isPartialDay := none, current_hour := none, total_export_kwh := 0
      zh_status := none, zh_qualified := false, zh_credit := 0
      zh_reason := some "Insufficient data"
      super_export_kwh := 0, super_earnings := 0
      fit_export_kwh := 0, fit_earnings := 0
      total_earnings := 0, data_points := (sortSamples l).length }
  else
    let hExp := hourlyExportOf isToday nowHour l
    let hImp := hourlyImportOf isToday nowHour l
    { isPartialDay := some isToday
      current_hour := some (if isToday then some nowHour else none)
      total_export_kwh := roundTo 4 (((List.range 24).map hExp).sum)
      zh_status := some (statusOf isToday ch hImp)
      zh_qualified := statusOf isToday ch hImp == "qualified"
      zh_credit := creditOf isToday ch hImp
      zh_reason := none
      super_export_kwh := roundTo 4 (superKwhOf isToday ch hExp)
      super_earnings := roundTo 4 (superEarningsOf isToday ch hExp)
      fit_export_kwh := roundTo 4 (fitKwhOf isToday ch hExp)
      fit_earnings := roundTo 4 (fitEarningsOf isToday ch hExp)
      total_earnings := roundTo 4 (creditOf isToday ch hImp
        + superEarningsOf isToday ch hExp + fitEarningsOf isToday ch hExp)
      data_points := (sortSamples l).length }

/-!
CSV row parsing (`read_csv_data`, src/api_server.py lines 310-343).  A numeric
cell is one of: absent (the column is missing from the file's header, so
`row.get(key, 0)` returns the default `0`), a value that `float()` parses, or
present-but-unparsable text (`float()` raises `ValueError`).  A timestamp cell
is absent (`row["timestamp"]` raises `KeyError`), a valid ISO timestamp, or
unparsable (`fromisoformat` raises `ValueError`).  Either exception is caught
by `except (ValueError, KeyError): continue`, which skips the row.  The
date-range filter of `read_csv_data` (rows outside `[start, end]` are also
skipped) is abstracted away: rows here are on the requested date.
-/

inductive NumField where
  | absent : NumField
  | num : ℚ → NumField
  | bad : NumField
deriving DecidableEq

inductive TsField where
  | absent : TsField
  | valid : ℕ → TsField
  | bad : TsField
deriving DecidableEq

/-- One CSV data row of a partition file. -/
structure CsvRow where
  timestamp : TsField
  solar : NumField
  load : NumField
  grid_export : NumField
  grid_import : NumField
  battery_charge : NumField
  battery_discharge : NumField
  battery_net : NumField
  soc_inv : NumField
  soc_bms : NumField
deriving DecidableEq

/-- `float(row.get(key, 0))`: a missing column yields `0.0`; unparsable text
raises (modelled as `none`, which skips the row). -/
def parseNum : NumField → Option ℚ
  | NumField.absent => some 0
  | NumField.num q => some q
  | NumField.bad => none

/-- Python `int(...)`: truncation toward zero. -/
def truncQ (q : ℚ) : ℤ :=
  if q < 0 then -((-q).floor) else q.floor

/-- The per-row body of `read_csv_data`'s loop: `none` means the row is
skipped by `except (ValueError, KeyError): continue`. -/
def readRow (r : CsvRow) : Option Sample :=
  match r.timestamp with
  | TsField.valid t =>
    (parseNum r.solar).bind fun vs =>
    (parseNum r.load).bind fun vl =>
    (parseNum r.grid_export).bind fun vge =>
    (parseNum r.grid_import).bind fun vgi =>
    (parseNum r.battery_charge).bind fun vbc =>
    (parseNum r.battery_discharge).bind fun vbd =>
    (parseNum r.battery_net).bind fun vbn =>
    (parseNum r.soc_inv).bind fun vsi =>
    (parseNum r.soc_bms).bind fun vsb =>
    some { ts := t, solar := vs, load := vl, grid_export := vge
           grid_import := vgi, battery_charge := vbc, battery_discharge := vbd
           battery_net := vbn, soc_inv := truncQ vsi, soc_bms := truncQ vsb }
  | _ => none

/-- The value the spec's reading of §6 would assign to a cell: missing or
unparsable defaults to 0. -/
def fieldVal : NumField → ℚ
  | NumField.absent => 0
  | NumField.num q => q
  | NumField.bad => 0

def isBadField : NumField → Bool
  | NumField.bad => true
  | _ => false

/-- Whether any numeric cell of the row is present but unparsable. -/
def rowHasBad (r : CsvRow) : Bool :=
  isBadField r.solar || isBadField r.load || isBadField r.grid_export
    || isBadField r.grid_import || isBadField r.battery_charge
    || isBadField r.battery_discharge || isBadField r.battery_net
    || isBadField r.soc_inv || isBadField r.soc_bms

/-- The Sample §6's reading would produce from a row (every numeric cell via
`fieldVal`). -/
def rowSample (t : ℕ) (r : CsvRow) : Sample :=
  { ts := t, solar := fieldVal r.solar, load := fieldVal r.load
    grid_export := fieldVal r.grid_export, grid_import := fieldVal r.grid_import
    battery_charge := fieldVal r.battery_charge
    battery_discharge := fieldVal r.battery_discharge
    battery_net := fieldVal r.battery_net
    soc_inv := truncQ (fieldVal r.soc_inv), soc_bms := truncQ (fieldVal r.soc_bms) }

/-!
Date-range endpoints (`get_daily_range` lines 691-733, `get_earnings_range`
lines 989-1034).  Dates are day numbers (ℤ); `(end_date - start_date).days`
is `e - s`.  Validation precedes the per-day aggregation loop, so a rejected
request does no aggregation work.
-/

/-- The shared date-range validation of both range endpoints. -/
def validateRange (s e : ℤ) : Option String :=
  if e < s then some "end_date cannot be before start_date"
  else if 90 < e - s then some "Date range cannot exceed 90 days"
  else none

/-- `get_daily_range`: validate, then map `calculate_daily_totals` over the
days of the range (`data` supplies each day's collected samples). -/
def dailyRange (s e : ℤ) (data : ℤ → List Sample) :
    Except String (List DailyTotals) :=
  match validateRange s e with
  | some msg => Except.error msg
  | none =>
    Except.ok ((List.range (e - s + 1).toNat).map
      (fun i => calculateDailyTotals (data (s + (i : ℤ)))))

/-- `get_earnings_range`: validate, then per-day earnings plus the rounded
grand total. -/
def earningsRange (s e today : ℤ) (nowHour : ℕ) (data : ℤ → List Sample) :
    Except String (List EarningsReport × ℚ) :=
  match validateRange s e with
  | some msg => Except.error msg
  | none =>
    let reports := (List.range (e - s + 1).toNat).map
      (fun i => calcEarnings (decide (s + (i : ℤ) = today)) nowHour
        (data (s + (i : ℤ))))
    Except.ok (reports, roundTo 4 ((reports.map (fun r => r.total_earnings)).sum))

/-!
The poll cycle (`poll_inverter`, src/api_server.py lines 228-283).  Register
reads are `Option` (None on retry timeout); raw power registers are in units
of 0.1 W, converted by `raw / 10.0 / 1000.0` to kW; battery power is derived
from the energy balance and clamped; all stored powers are `round(x, 3)`.
-/

def pollSample (ts : ℕ) (pv_raw grid_import_raw grid_export_raw : Option ℕ)
    (load_raw : Option ℤ) (soc_inv soc_bms : Option ℕ) : Sample :=
  let pv : ℚ := match pv_raw with | some v => (v : ℚ) / 10 / 1000 | none => 0
  let grid_import : ℚ :=
    match grid_import_raw with | some v => (v : ℚ) / 10 / 1000 | none => 0
  let grid_export : ℚ :=
    match grid_export_raw with | some v => (v : ℚ) / 10 / 1000 | none => 0
  let load_val : ℚ :=
    match load_raw with | some v => (v : ℚ) / 10 / 1000 | none => 0
  let battery_net : ℚ := pv + grid_import - grid_export - load_val
  let battery_charge : ℚ := max battery_net 0
  let battery_discharge : ℚ := max (-battery_net) 0
  { ts := ts
    solar := roundTo 3 pv
    battery_discharge := roundTo 3 battery_discharge
    grid_import := roundTo 3 grid_import
    battery_charge := roundTo 3 battery_charge
    load := roundTo 3 load_val
    grid_export := roundTo 3 grid_export
    battery_net := roundTo 3 battery_net
    soc_inv := ((soc_inv.getD 0 : ℕ) : ℤ)
    soc_bms := ((soc_bms.getD 0 : ℕ) : ℤ) }

/-- Per-pair export contribution to `hourly_export[h]` in the earnings loop
(0 when skipped as a future hour of a partial day or as an invalid interval). -/
def flowPairExport (isToday : Bool) (ch : ℕ) (h : ℕ) (p : Sample × Sample) : ℚ :=
  if isToday && decide (ch ≤ hourOf p.1) then 0 else hourPairEnergy Sample.grid_export h p

/-- Per-pair import contribution to `hourly_import[h]` in the earnings loop. -/
def flowPairImport (isToday : Bool) (ch : ℕ) (h : ℕ) (p : Sample × Sample) : ℚ :=
  if isToday && decide (ch ≤ hourOf p.1) then 0
  else hourPairEnergy (fun s => |s.grid_import|) h p

/-- A CSV row whose `battery_net` column is missing from the header and whose
other cells parse. -/
def rowAbsentNet : CsvRow :=
  { timestamp := TsField.valid 100
    solar := NumField.num 2
    load := NumField.num 1
    grid_export := NumField.num 0
    grid_import := NumField.num 0
    battery_charge := NumField.num 0
    battery_discharge := NumField.num 0
    battery_net := NumField.absent
    soc_inv := NumField.num 50
    soc_bms := NumField.num 50 }

/-!
Basic facts about the stable sort.
-/

theorem insertByTs_perm (x : Sample) (l : List Sample) :
    List.Perm (insertByTs x l) (x :: l) := by
  induction l with
  | nil => simp [insertByTs]
  | cons y ys ih =>
    simp only [insertByTs]
    split
    · exact List.Perm.refl _
    · exact (List.Perm.cons y ih).trans (List.Perm.swap x y ys)

theorem sortSamples_perm (l : List Sample) : List.Perm (sortSamples l) l := by
  induction l with
  | nil => simp [sortSamples]
  | cons x xs ih =>
    exact (insertByTs_perm x (sortSamples xs)).trans (List.Perm.cons x ih)

theorem sortSamples_length (l : List Sample) :
    (sortSamples l).length = l.length :=
  (sortSamples_perm l).length_eq

theorem insertByTs_sorted (x : Sample) (l : List Sample)
    (hl : l.Pairwise (fun a b => a.ts ≤ b.ts)) :
    (insertByTs x l).Pairwise (fun a b => a.ts ≤ b.ts) := by
  induction l with
  | nil => simp [insertByTs]
  | cons y ys ih =>
    rcases List.pairwise_cons.mp hl with ⟨hy, hys⟩
    simp only [insertByTs]
    split
    · refine List.pairwise_cons.mpr ⟨?_, hl⟩
      intro b hb
      rcases List.mem_cons.mp hb with hb | hb
      · subst hb; assumption
      · exact le_trans (by assumption) (hy b hb)
    · refine List.pairwise_cons.mpr ⟨?_, ih hys⟩
      intro b hb
      rcases List.mem_cons.mp (((insertByTs_perm x ys).mem_iff).mp hb) with hb | hb
      · subst hb; omega
      · exact hy b hb

theorem sortSamples_sorted (l : List Sample) :
    (sortSamples l).Pairwise (fun a b => a.ts ≤ b.ts) := by
  induction l with
  | nil => simp [sortSamples]
  | cons x xs ih => exact insertByTs_sorted x (sortSamples xs) ih

/-- Two permuted inputs with pairwise-distinct timestamps sort identically. -/
theorem sortSamples_eq_of_perm (l l' : List Sample) (hp : List.Perm l l')
    (hd : l.Pairwise (fun a b => a.ts ≠ b.ts)) :
    sortSamples l = sortSamples l' := by
  haveI : IsAntisymm Sample (fun a b => a.ts < b.ts) :=
    ⟨fun a b h1 h2 => absurd h2 (Nat.lt_asymm h1)⟩
  have hperm : List.Perm (sortSamples l) (sortSamples l') :=
    (sortSamples_perm l).trans (hp.trans (sortSamples_perm l').symm)
  have hd1 : (sortSamples l).Pairwise (fun a b => a.ts ≠ b.ts) :=
    ((sortSamples_perm l).pairwise_iff (fun h e => h e.symm)).mpr hd
  have hd2 : (sortSamples l').Pairwise (fun a b => a.ts ≠ b.ts) :=
    (hperm.pairwise_iff (fun h e => h e.symm)).mp hd1
  have hs1 : (sortSamples l).Pairwise (fun a b => a.ts < b.ts) :=
    ((sortSamples_sorted l).and hd1).imp (fun h => lt_of_le_of_ne h.1 h.2)
  have hs2 : (sortSamples l').Pairwise (fun a b => a.ts < b.ts) :=
    ((sortSamples_sorted l').and hd2).imp (fun h => lt_of_le_of_ne h.1 h.2)
  exact List.eq_of_perm_of_sorted hperm hs1 hs2

theorem foldl_stepHourly_field
    (g : HourBucket → ℚ) (f : Sample → ℚ)
    (hg : ∀ b s ih, g (addPairToBucket b s ih) = g b + f s * ih)
    (ps : List (Sample × Sample)) (acc : ℕ → HourBucket) (h : ℕ) :
    g ((ps.foldl stepHourly acc) h)
      = g (acc h) + (ps.map (hourPairEnergy f h)).sum := by
  induction ps generalizing acc with
  | nil => simp
  | cons p ps ih =>
    rw [List.foldl_cons, ih, List.map_cons, List.sum_cons]
    have hstep : g ((stepHourly acc p) h) = g (acc h) + hourPairEnergy f h p := by
      unfold stepHourly hourPairEnergy pairEnergy
      by_cases hv : intervalSec p ≤ 0 ∨ 600 < intervalSec p
      · simp [hv]
      · by_cases hh : hourOf p.1 = h <;> simp [hv, hh, hg]
    rw [hstep]; ring

theorem foldl_stepDaily_field
    (g : DailyAcc → ℚ) (f : Sample → ℚ)
    (hg : ∀ a p, ¬(intervalSec p ≤ 0 ∨ 600 < intervalSec p) →
      g (stepDaily a p) = g a + f p.1 * ((intervalSec p : ℚ) / 3600))
    (ps : List (Sample × Sample)) (a : DailyAcc) :
    g (ps.foldl stepDaily a) = g a + (ps.map (pairEnergy f)).sum := by
  induction ps generalizing a with
  | nil => simp
  | cons p ps ih =>
    rw [List.foldl_cons, ih, List.map_cons, List.sum_cons]
    have hstep : g (stepDaily a p) = g a + pairEnergy f p := by
      unfold pairEnergy
      by_cases hv : intervalSec p ≤ 0 ∨ 600 < intervalSec p
      · simp [stepDaily, hv]
      · simp [hg a p hv, hv]
    rw [hstep]; ring

theorem getD_map_range {α : Type} (n : ℕ) (f : ℕ → α) (h : ℕ) (hh : h < n)
    (d : α) : (((List.range n).map f).getD h d) = f h := by
  rw [List.getD_eq_getElem?_getD]
  rw [List.getElem?_map]
  rw [List.getElem?_range hh]
  rfl

theorem consecutivePairs_short (l : List Sample) (hl : l.length < 2) :
    consecutivePairs l = [] := by
  match l, hl with
  | [], _ => rfl
  | [x], _ => rfl

theorem ratFloor_eq_intFloor (q : ℚ) : q.floor = ⌊q⌋ :=
  (Rat.floor_def' q).trans Rat.floor_def.symm

theorem roundTo_zero (d : ℕ) : roundTo d 0 = 0 := by
  unfold roundTo roundHalfEven
  rw [ratFloor_eq_intFloor]
  norm_num

/-- C1: in `calculate_hourly_totals`, after sorting by timestamp, each
consecutive pair with `Δt ≤ 0` or `Δt > 600` contributes nothing, and each
retained pair contributes `power(s[i]) × Δt/3600` kWh to each of the six
channels (grid import via its absolute value), attributed entirely to the
hour-of-day of the pair's start sample; each reported hourly figure is the
3-decimal rounding of the sum of these per-pair contributions. -/
theorem hourly_totals_pair_contribution (l : List Sample) (h : ℕ) (hh : h < 24) :
    ((calculateHourlyTotals l).getD h (emptyBucket h)).solar_kwh
        = roundTo 3 (hourContribution Sample.solar h l)
  ∧ ((calculateHourlyTotals l).getD h (emptyBucket h)).load_kwh
        = roundTo 3 (hourContribution Sample.load h l)
  ∧ ((calculateHourlyTotals l).getD h (emptyBucket h)).grid_export_kwh
        = roundTo 3 (hourContribution Sample.grid_export h l)
  ∧ ((calculateHourlyTotals l).getD h (emptyBucket h)).grid_import_kwh
        = roundTo 3 (hourContribution (fun s => |s.grid_import|) h l)
  ∧ ((calculateHourlyTotals l).getD h (emptyBucket h)).battery_charge_kwh
        = roundTo 3 (hourContribution Sample.battery_charge h l)
  ∧ ((calculateHourlyTotals l).getD h (emptyBucket h)).battery_discharge_kwh
        = roundTo 3 (hourContribution Sample.battery_discharge h l) := by
  by_cases hlen : (sortSamples l).length < 2
  · have e : calculateHourlyTotals l = (List.range 24).map emptyBucket := by
      unfold calculateHourlyTotals
      simp only [if_pos hlen]
    have hc : ∀ f : Sample → ℚ, hourContribution f h l = 0 := by
      intro f
      unfold hourContribution
      rw [consecutivePairs_short _ hlen]
      simp
    rw [e, getD_map_range 24 emptyBucket h hh]
    simp [emptyBucket, hc, roundTo_zero]
  · have e : calculateHourlyTotals l
        = (List.range 24).map
            (fun h => roundBucket
              ((consecutivePairs (sortSamples l)).foldl stepHourly emptyBucket h)) := by
      unfold calculateHourlyTotals
      simp only [if_neg hlen]
    rw [e, getD_map_range 24 _ h hh]
    have t1 := foldl_stepHourly_field (fun b => b.solar_kwh) Sample.solar
      (fun _ _ _ => rfl) (consecutivePairs (sortSamples l)) emptyBucket h
    have t2 := foldl_stepHourly_field (fun b => b.load_kwh) Sample.load
      (fun _ _ _ => rfl) (consecutivePairs (sortSamples l)) emptyBucket h
    have t3 := foldl_stepHourly_field (fun b => b.grid_export_kwh) Sample.grid_export
      (fun _ _ _ => rfl) (consecutivePairs (sortSamples l)) emptyBucket h
    have t4 := foldl_stepHourly_field (fun b => b.grid_import_kwh) (fun s => |s.grid_import|)
      (fun _ _ _ => rfl) (consecutivePairs (sortSamples l)) emptyBucket h
    have t5 := foldl_stepHourly_field (fun b => b.battery_charge_kwh) Sample.battery_charge
      (fun _ _ _ => rfl) (consecutivePairs (sortSamples l)) emptyBucket h
    have t6 := foldl_stepHourly_field (fun b => b.battery_discharge_kwh) Sample.battery_discharge
      (fun _ _ _ => rfl) (consecutivePairs (sortSamples l)) emptyBucket h
    simp only [emptyBucket] at t1 t2 t3 t4 t5 t6
    rw [zero_add] at t1 t2 t3 t4 t5 t6
    unfold hourContribution
    exact ⟨congrArg (roundTo 3) t1, congrArg (roundTo 3) t2,
      congrArg (roundTo 3) t3, congrArg (roundTo 3) t4,
      congrArg (roundTo 3) t5, congrArg (roundTo 3) t6⟩

/-- Witness for C1: the spec's own example, two samples 300 s apart with
solar 2.0 kW, evaluated at hour 0. -/
theorem hourly_totals_pair_contribution_witness :
    ((calculateHourlyTotals [mkSample 0 2 0 0, mkSample 300 0 0 0]).getD 0
        (emptyBucket 0)).solar_kwh
        = roundTo 3 (hourContribution Sample.solar 0
            [mkSample 0 2 0 0, mkSample 300 0 0 0])
  ∧ ((calculateHourlyTotals [mkSample 0 2 0 0, mkSample 300 0 0 0]).getD 0
        (emptyBucket 0)).load_kwh
        = roundTo 3 (hourContribution Sample.load 0
            [mkSample 0 2 0 0, mkSample 300 0 0 0])
  ∧ ((calculateHourlyTotals [mkSample 0 2 0 0, mkSample 300 0 0 0]).getD 0
        (emptyBucket 0)).grid_export_kwh
        = roundTo 3 (hourContribution Sample.grid_export 0
            [mkSample 0 2 0 0, mkSample 300 0 0 0])
  ∧ ((calculateHourlyTotals [mkSample 0 2 0 0, mkSample 300 0 0 0]).getD 0
        (emptyBucket 0)).grid_import_kwh
        = roundTo 3 (hourContribution (fun s => |s.grid_import|) 0
            [mkSample 0 2 0 0, mkSample 300 0 0 0])
  ∧ ((calculateHourlyTotals [mkSample 0 2 0 0, mkSample 300 0 0 0]).getD 0
        (emptyBucket 0)).battery_charge_kwh
        = roundTo 3 (hourContribution Sample.battery_charge 0
            [mkSample 0 2 0 0, mkSample 300 0 0 0])
  ∧ ((calculateHourlyTotals [mkSample 0 2 0 0, mkSample 300 0 0 0]).getD 0
        (emptyBucket 0)).battery_discharge_kwh
        = roundTo 3 (hourContribution Sample.battery_discharge 0
            [mkSample 0 2 0 0, mkSample 300 0 0 0]) :=
  hourly_totals_pair_contribution [mkSample 0 2 0 0, mkSample 300 0 0 0] 0
    (by decide)

/-- C4: with fewer than 2 samples for the date, every daily kWh field and all
24 hourly buckets are exactly 0, and the reported `count` equals the actual
number of collected samples. -/
theorem insufficient_data_zero_totals (l : List Sample) (hl : l.length < 2) :
    (calculateDailyTotals l).solar_kwh = 0
  ∧ (calculateDailyTotals l).load_kwh = 0
  ∧ (calculateDailyTotals l).grid_export_kwh = 0
  ∧ (calculateDailyTotals l).grid_import_kwh = 0
  ∧ (calculateDailyTotals l).battery_charge_kwh = 0
  ∧ (calculateDailyTotals l).battery_discharge_kwh = 0
  ∧ (calculateDailyTotals l).count = l.length
  ∧ (∀ b ∈ calculateHourlyTotals l,
      b.solar_kwh = 0 ∧ b.load_kwh = 0 ∧ b.grid_export_kwh = 0
    ∧ b.grid_import_kwh = 0 ∧ b.battery_charge_kwh = 0
    ∧ b.battery_discharge_kwh = 0 ∧ b.count = 0) := by
  have hlen : (sortSamples l).length < 2 := by rw [sortSamples_length]; exact hl
  have ed : calculateDailyTotals l =
      { solar_kwh := 0, load_kwh := 0, grid_export_kwh := 0, grid_import_kwh := 0
        battery_charge_kwh := 0, battery_discharge_kwh := 0
        count := (sortSamples l).length, avg_interval_sec := 0 } := by
    unfold calculateDailyTotals
    simp only [if_pos hlen]
  have eh : calculateHourlyTotals l = (List.range 24).map emptyBucket := by
    unfold calculateHourlyTotals
    simp only [if_pos hlen]
  refine ⟨by rw [ed], by rw [ed], by rw [ed], by rw [ed], by rw [ed], by rw [ed],
    by rw [ed]; exact sortSamples_length l, ?_⟩
  intro b hb
  rw [eh] at hb
  rcases List.mem_map.mp hb with ⟨h, _, hbe⟩
  subst hbe
  exact ⟨rfl, rfl, rfl, rfl, rfl, rfl, rfl⟩

/-- Witness for C4 at a single-sample input. -/
theorem insufficient_data_zero_totals_witness :
    (calculateDailyTotals [mkSample 0 2 0 0]).solar_kwh = 0
  ∧ (calculateDailyTotals [mkSample 0 2 0 0]).load_kwh = 0
  ∧ (calculateDailyTotals [mkSample 0 2 0 0]).grid_export_kwh = 0
  ∧ (calculateDailyTotals [mkSample 0 2 0 0]).grid_import_kwh = 0
  ∧ (calculateDailyTotals [mkSample 0 2 0 0]).battery_charge_kwh = 0
  ∧ (calculateDailyTotals [mkSample 0 2 0 0]).battery_discharge_kwh = 0
  ∧ (calculateDailyTotals [mkSample 0 2 0 0]).count = [mkSample 0 2 0 0].length
  ∧ (∀ b ∈ calculateHourlyTotals [mkSample 0 2 0 0],
      b.solar_kwh = 0 ∧ b.load_kwh = 0 ∧ b.grid_export_kwh = 0
    ∧ b.grid_import_kwh = 0 ∧ b.battery_charge_kwh = 0
    ∧ b.battery_discharge_kwh = 0 ∧ b.count = 0) :=
  insufficient_data_zero_totals [mkSample 0 2 0 0] (by decide)

theorem roundHalfEven_eq_of_lt (n : ℤ) (q : ℚ) (h1 : (n : ℚ) ≤ q)
    (h2 : q < (n : ℚ) + 1/2) : roundHalfEven q = n := by
  have hf : Rat.floor q = n := by
    rw [ratFloor_eq_intFloor, Int.floor_eq_iff]
    exact ⟨h1, by linarith⟩
  simp only [roundHalfEven, hf]
  rw [if_pos (by linarith)]

theorem roundHalfEven_eq_of_gt (n : ℤ) (q : ℚ) (h1 : (n : ℚ) + 1/2 < q)
    (h2 : q < (n : ℚ) + 1) : roundHalfEven q = n + 1 := by
  have hf : Rat.floor q = n := by
    rw [ratFloor_eq_intFloor, Int.floor_eq_iff]
    exact ⟨by linarith, by linarith⟩
  simp only [roundHalfEven, hf]
  rw [if_neg (by linarith), if_pos (by linarith)]

theorem roundHalfEven_intCast (n : ℤ) : roundHalfEven ((n : ℤ) : ℚ) = n :=
  roundHalfEven_eq_of_lt n _ (le_refl _) (by linarith)

theorem roundTo_intCast (d : ℕ) (n : ℤ) : roundTo d ((n : ℤ) : ℚ) = n := by
  unfold roundTo
  rw [show ((n : ℚ) * (10:ℚ)^d) = (((n * 10^d : ℤ) : ℤ) : ℚ) by push_cast; ring,
    roundHalfEven_intCast]
  push_cast
  rw [mul_div_assoc, div_self (by positivity), mul_one]

/-- Counterexample to C5: two permutations of the same sample multiset with a
duplicated timestamp (`ts = 10`) produce different daily totals.  The stable
sort keeps equal-timestamp samples in input order, the pair between the two
duplicates is discarded (`Δt = 0`), and the following retained pair uses the
power of whichever duplicate ended up second — 7200 kW vs 3600 kW here, so
the day's solar total is 20 kWh in one order and 10 kWh in the other. -/
theorem shuffle_changes_totals_on_duplicate_ts :
    List.Perm
      [mkSample 0 0 0 0, mkSample 10 3600 0 0, mkSample 10 7200 0 0,
        mkSample 20 0 0 0]
      [mkSample 0 0 0 0, mkSample 10 7200 0 0, mkSample 10 3600 0 0,
        mkSample 20 0 0 0]
  ∧ calculateDailyTotals
      [mkSample 0 0 0 0, mkSample 10 3600 0 0, mkSample 10 7200 0 0,
        mkSample 20 0 0 0]
    ≠ calculateDailyTotals
      [mkSample 0 0 0 0, mkSample 10 7200 0 0, mkSample 10 3600 0 0,
        mkSample 20 0 0 0] := by
  constructor
  · exact List.Perm.cons _ (List.Perm.swap _ _ _)
  · have e1 : (calculateDailyTotals
        [mkSample 0 0 0 0, mkSample 10 3600 0 0, mkSample 10 7200 0 0,
          mkSample 20 0 0 0]).solar_kwh = roundTo 2 20 := by
      have hs : sortSamples
          [mkSample 0 0 0 0, mkSample 10 3600 0 0, mkSample 10 7200 0 0,
            mkSample 20 0 0 0]
        = [mkSample 0 0 0 0, mkSample 10 3600 0 0, mkSample 10 7200 0 0,
            mkSample 20 0 0 0] := rfl
      simp only [calculateDailyTotals, hs]
      norm_num [consecutivePairs, List.zip_cons_cons, List.zip_nil_right,
        stepDaily, intervalSec, mkSample]
    have e2 : (calculateDailyTotals
        [mkSample 0 0 0 0, mkSample 10 7200 0 0, mkSample 10 3600 0 0,
          mkSample 20 0 0 0]).solar_kwh = roundTo 2 10 := by
      have hs : sortSamples
          [mkSample 0 0 0 0, mkSample 10 7200 0 0, mkSample 10 3600 0 0,
            mkSample 20 0 0 0]
        = [mkSample 0 0 0 0, mkSample 10 7200 0 0, mkSample 10 3600 0 0,
            mkSample 20 0 0 0] := rfl
      simp only [calculateDailyTotals, hs]
      norm_num [consecutivePairs, List.zip_cons_cons, List.zip_nil_right,
        stepDaily, intervalSec, mkSample]
    intro h
    have h' := congrArg DailyTotals.solar_kwh h
    rw [e1, e2, show (20 : ℚ) = ((20 : ℤ) : ℚ) by norm_num,
      show (10 : ℚ) = ((10 : ℤ) : ℚ) by norm_num,
      roundTo_intCast, roundTo_intCast] at h'
    norm_num at h'

/-- C5 amended: permuting the input before aggregation leaves the hourly and
daily totals unchanged, provided the samples carry pairwise-distinct
timestamps (with duplicated timestamps the stable sort is input-order
dependent; see the counterexample). -/
theorem totals_perm_invariant_of_distinct_ts (l l' : List Sample)
    (hp : List.Perm l l') (hd : l.Pairwise (fun a b => a.ts ≠ b.ts)) :
    calculateHourlyTotals l = calculateHourlyTotals l'
  ∧ calculateDailyTotals l = calculateDailyTotals l' := by
  have hs := sortSamples_eq_of_perm l l' hp hd
  constructor
  · unfold calculateHourlyTotals
    rw [hs]
  · unfold calculateDailyTotals
    rw [hs]

/-- Witness for amended C5: swapping two distinct-timestamp samples. -/
theorem totals_perm_invariant_of_distinct_ts_witness :
    calculateHourlyTotals [mkSample 0 1 0 0, mkSample 300 2 0 0]
      = calculateHourlyTotals [mkSample 300 2 0 0, mkSample 0 1 0 0]
  ∧ calculateDailyTotals [mkSample 0 1 0 0, mkSample 300 2 0 0]
      = calculateDailyTotals [mkSample 300 2 0 0, mkSample 0 1 0 0] :=
  totals_perm_invariant_of_distinct_ts
    [mkSample 0 1 0 0, mkSample 300 2 0 0]
    [mkSample 300 2 0 0, mkSample 0 1 0 0]
    (List.Perm.swap (mkSample 300 2 0 0) (mkSample 0 1 0 0) [])
    (by decide)

/-!
Facts about the earnings engine.
-/

theorem windowHours_eq : windowHours = [18, 19] := rfl

theorem calcEarnings_eq_of_two_le (isToday : Bool) (nowHour : ℕ)
    (l : List Sample) (h2 : 2 ≤ l.length) :
    calcEarnings isToday nowHour l =
      { isPartialDay := some isToday
        current_hour := some (if isToday then some nowHour else none)
        total_export_kwh :=
          roundTo 4 (((List.range 24).map (hourlyExportOf isToday nowHour l)).sum)
        zh_status := some (statusOf isToday (currentHourOf isToday nowHour)
          (hourlyImportOf isToday nowHour l))
        zh_qualified := statusOf isToday (currentHourOf isToday nowHour)
          (hourlyImportOf isToday nowHour l) == "qualified"
        zh_credit := creditOf isToday (currentHourOf isToday nowHour)
          (hourlyImportOf isToday nowHour l)
        zh_reason := none
        super_export_kwh := roundTo 4 (superKwhOf isToday
          (currentHourOf isToday nowHour) (hourlyExportOf isToday nowHour l))
        super_earnings := roundTo 4 (superEarningsOf isToday
          (currentHourOf isToday nowHour) (hourlyExportOf isToday nowHour l))
        fit_export_kwh := roundTo 4 (fitKwhOf isToday
          (currentHourOf isToday nowHour) (hourlyExportOf isToday nowHour l))
        fit_earnings := roundTo 4 (fitEarningsOf isToday
          (currentHourOf isToday nowHour) (hourlyExportOf isToday nowHour l))
        total_earnings := roundTo 4
          (creditOf isToday (currentHourOf isToday nowHour)
              (hourlyImportOf isToday nowHour l)
            + superEarningsOf isToday (currentHourOf isToday nowHour)
                (hourlyExportOf isToday nowHour l)
            + fitEarningsOf isToday (currentHourOf isToday nowHour)
                (hourlyExportOf isToday nowHour l))
        data_points := l.length } := by
  have hlen : ¬ ((sortSamples l).length < 2) := by
    rw [sortSamples_length]; omega
  unfold calcEarnings
  simp only [if_neg hlen, sortSamples_length]
  rw [if_neg (by omega : ¬ l.length < 2)]

theorem calcEarnings_eq_of_lt_two (isToday : Bool) (nowHour : ℕ)
    (l : List Sample) (h2 : l.length < 2) :
    calcEarnings isToday nowHour l =
      { isPartialDay := none, current_hour := none, total_export_kwh := 0
        zh_status := none, zh_qualified := false, zh_credit := 0
        zh_reason := some "Insufficient data"
        super_export_kwh := 0, super_earnings := 0
        fit_export_kwh := 0, fit_earnings := 0
        total_earnings := 0, data_points := l.length } := by
  have hlen : (sortSamples l).length < 2 := by
    rw [sortSamples_length]; omega
  unfold calcEarnings
  simp only [if_pos hlen, sortSamples_length]
  rw [if_pos h2]

theorem evaluatedHours_eq_of_complete (isToday : Bool) (ch : ℕ)
    (h : isToday = false ∨ 20 ≤ ch) :
    evaluatedHours isToday ch = [18, 19] := by
  rcases h with h | h
  · subst h; simp [evaluatedHours, windowHours_eq]
  · have h18 : decide (ch ≤ 18) = false := decide_eq_false (by omega)
    have h19 : decide (ch ≤ 19) = false := decide_eq_false (by omega)
    simp [evaluatedHours, windowHours_eq, h18, h19]

/-- C2: for a report over at least 2 data points, the credit status is
`pending` iff the date is today and the wall-clock hour has not reached the
window end (20); otherwise it is `qualified` iff both (fully elapsed) window
hours' import energy is at or below the per-hour ceiling, else
`not_qualified`; the flat day credit is paid exactly when the status is
`qualified`; and a past date never reports `pending`. -/
theorem earnings_status_three_state (isToday : Bool) (nowHour : ℕ)
    (l : List Sample) (h2 : 2 ≤ l.length) :
    ((calcEarnings isToday nowHour l).zh_status = some "pending"
        ↔ (isToday = true ∧ nowHour < 20))
  ∧ (¬(isToday = true ∧ nowHour < 20) →
      (((calcEarnings isToday nowHour l).zh_status = some "qualified"
          ↔ (hourlyImportOf isToday nowHour l 18 ≤ zerohero_import_threshold
            ∧ hourlyImportOf isToday nowHour l 19 ≤ zerohero_import_threshold))
        ∧ ((calcEarnings isToday nowHour l).zh_status = some "not_qualified"
          ↔ ¬(hourlyImportOf isToday nowHour l 18 ≤ zerohero_import_threshold
            ∧ hourlyImportOf isToday nowHour l 19 ≤ zerohero_import_threshold))))
  ∧ ((calcEarnings isToday nowHour l).zh_credit
      = if (calcEarnings isToday nowHour l).zh_status = some "qualified"
        then zerohero_day_credit else 0)
  ∧ (isToday = false → (calcEarnings isToday nowHour l).zh_status ≠ some "pending") := by
  have he := calcEarnings_eq_of_two_le isToday nowHour l h2
  simp only [he]
  cases isToday with
  | false =>
    have hev : evaluatedHours false (currentHourOf false nowHour) = [18, 19] :=
      evaluatedHours_eq_of_complete _ _ (Or.inl rfl)
    by_cases h18 : hourlyImportOf false nowHour l 18 ≤ zerohero_import_threshold <;>
      by_cases h19 : hourlyImportOf false nowHour l 19 ≤ zerohero_import_threshold <;>
        simp [statusOf, creditOf, windowCompleteOf, qualifiedOf, hev, h18, h19]
  | true =>
    by_cases hp : nowHour < 20
    · have hwc : windowCompleteOf true (currentHourOf true nowHour) = false := by
        simp only [windowCompleteOf, currentHourOf, zerohero_window_end, if_true]
        exact decide_eq_false (by omega)
      simp [statusOf, creditOf, hwc, hp]
    · have hwc : windowCompleteOf true (currentHourOf true nowHour) = true := by
        simp only [windowCompleteOf, currentHourOf, zerohero_window_end, if_true]
        exact decide_eq_true (by omega)
      have hev : evaluatedHours true nowHour = [18, 19] :=
        evaluatedHours_eq_of_complete true nowHour (Or.inr (by omega))
      by_cases h18 : hourlyImportOf true nowHour l 18 ≤ zerohero_import_threshold <;>
        by_cases h19 : hourlyImportOf true nowHour l 19 ≤ zerohero_import_threshold <;>
          simp [statusOf, creditOf, windowCompleteOf, qualifiedOf, hev, hwc, h18,
            h19, hp, currentHourOf, zerohero_window_end]

/-- Witness for C2: a past date with two samples in hour 10. -/
theorem earnings_status_three_state_witness :
    ((calcEarnings false 0 [mkSample 36000 0 0 0, mkSample 36300 0 0 0]).zh_status
          = some "pending"
        ↔ (false = true ∧ 0 < 20))
  ∧ (¬(false = true ∧ 0 < 20) →
      (((calcEarnings false 0 [mkSample 36000 0 0 0, mkSample 36300 0 0 0]).zh_status
            = some "qualified"
          ↔ (hourlyImportOf false 0 [mkSample 36000 0 0 0, mkSample 36300 0 0 0] 18
                ≤ zerohero_import_threshold
            ∧ hourlyImportOf false 0 [mkSample 36000 0 0 0, mkSample 36300 0 0 0] 19
                ≤ zerohero_import_threshold))
        ∧ ((calcEarnings false 0 [mkSample 36000 0 0 0, mkSample 36300 0 0 0]).zh_status
            = some "not_qualified"
          ↔ ¬(hourlyImportOf false 0 [mkSample 36000 0 0 0, mkSample 36300 0 0 0] 18
                ≤ zerohero_import_threshold
            ∧ hourlyImportOf false 0 [mkSample 36000 0 0 0, mkSample 36300 0 0 0] 19
                ≤ zerohero_import_threshold))))
  ∧ ((calcEarnings false 0 [mkSample 36000 0 0 0, mkSample 36300 0 0 0]).zh_credit
      = if (calcEarnings false 0 [mkSample 36000 0 0 0, mkSample 36300 0 0 0]).zh_status
            = some "qualified"
        then zerohero_day_credit else 0)
  ∧ (false = false →
      (calcEarnings false 0 [mkSample 36000 0 0 0, mkSample 36300 0 0 0]).zh_status
        ≠ some "pending") :=
  earnings_status_three_state false 0 [mkSample 36000 0 0 0, mkSample 36300 0 0 0]
    (by decide)

theorem foldl_stepFlows_fst (isToday : Bool) (ch : ℕ)
    (ps : List (Sample × Sample)) (acc : (ℕ → ℚ) × (ℕ → ℚ)) (h : ℕ) :
    ((ps.foldl (stepFlows isToday ch) acc).1) h
      = acc.1 h + (ps.map (flowPairExport isToday ch h)).sum := by
  induction ps generalizing acc with
  | nil => simp
  | cons p ps ih =>
    rw [List.foldl_cons, ih, List.map_cons, List.sum_cons]
    have hstep : ((stepFlows isToday ch acc p).1) h
        = acc.1 h + flowPairExport isToday ch h p := by
      unfold stepFlows flowPairExport hourPairEnergy pairEnergy
      by_cases hsk : (isToday && decide (ch ≤ hourOf p.1)) = true
      · simp [hsk]
      · have hsk' : ¬(isToday = true ∧ ch ≤ hourOf p.1) := by simpa using hsk
        by_cases hv : intervalSec p ≤ 0 ∨ 600 < intervalSec p
        · by_cases hh : hourOf p.1 = h
          · simp [hsk, hv, hh, hh ▸ hsk']
          · simp [hsk, hv, hh, hsk']
        · by_cases hh : hourOf p.1 = h
          · simp [hsk, hv, hh, hh ▸ hsk']
          · simp [hsk, hv, hh, hsk']
    rw [hstep]; ring

theorem foldl_stepFlows_snd (isToday : Bool) (ch : ℕ)
    (ps : List (Sample × Sample)) (acc : (ℕ → ℚ) × (ℕ → ℚ)) (h : ℕ) :
    ((ps.foldl (stepFlows isToday ch) acc).2) h
      = acc.2 h + (ps.map (flowPairImport isToday ch h)).sum := by
  induction ps generalizing acc with
  | nil => simp
  | cons p ps ih =>
    rw [List.foldl_cons, ih, List.map_cons, List.sum_cons]
    have hstep : ((stepFlows isToday ch acc p).2) h
        = acc.2 h + flowPairImport isToday ch h p := by
      unfold stepFlows flowPairImport hourPairEnergy pairEnergy
      by_cases hsk : (isToday && decide (ch ≤ hourOf p.1)) = true
      · simp [hsk]
      · have hsk' : ¬(isToday = true ∧ ch ≤ hourOf p.1) := by simpa using hsk
        by_cases hv : intervalSec p ≤ 0 ∨ 600 < intervalSec p
        · by_cases hh : hourOf p.1 = h
          · simp [hsk, hv, hh, hh ▸ hsk']
          · simp [hsk, hv, hh, hsk']
        · by_cases hh : hourOf p.1 = h
          · simp [hsk, hv, hh, hh ▸ hsk']
          · simp [hsk, hv, hh, hsk']
    rw [hstep]; ring

theorem statusOf_qualified_of_imports (hImp : ℕ → ℚ)
    (h18 : hImp 18 ≤ zerohero_import_threshold)
    (h19 : hImp 19 ≤ zerohero_import_threshold) :
    statusOf false 24 hImp = "qualified"
  ∧ creditOf false 24 hImp = zerohero_day_credit := by
  have hev : evaluatedHours false 24 = [18, 19] :=
    evaluatedHours_eq_of_complete false 24 (Or.inl rfl)
  have hq : qualifiedOf false 24 hImp = true := by
    simp [qualifiedOf, hev, h18, h19]
  constructor
  · simp [statusOf, windowCompleteOf, hq]
  · simp [creditOf, windowCompleteOf, hq]

/-- C10: on a complete (past) date with at least 2 samples all of whose hours
lie outside the 18-20 qualification window, the evaluated window hours have
no retained interval, are treated as 0 kWh of import, pass the ceiling test,
and the date is reported `qualified` and paid the flat day credit. -/
theorem qualified_when_no_window_data (nowHour : ℕ) (l : List Sample)
    (h2 : 2 ≤ l.length)
    (hw : ∀ s ∈ l, hourOf s < 18 ∨ 20 ≤ hourOf s) :
    hourlyImportOf false nowHour l 18 = 0
  ∧ hourlyImportOf false nowHour l 19 = 0
  ∧ (calcEarnings false nowHour l).zh_status = some "qualified"
  ∧ (calcEarnings false nowHour l).zh_credit = zerohero_day_credit := by
  have him : ∀ h' : ℕ, 18 ≤ h' → h' < 20 → hourlyImportOf false nowHour l h' = 0 := by
    intro h' hge hlt
    unfold hourlyImportOf hourlyFlows
    rw [foldl_stepFlows_snd]
    rw [List.sum_eq_zero, add_zero]
    intro x hx
    rcases List.mem_map.mp hx with ⟨p, hp, hxe⟩
    subst hxe
    have hmem : p.1 ∈ sortSamples l := by
      rcases p with ⟨p1, p2⟩
      exact (List.of_mem_zip hp).1
    have hmem' : p.1 ∈ l := (sortSamples_perm l).mem_iff.mp hmem
    rcases hw p.1 hmem' with hh | hh <;>
      · unfold flowPairImport hourPairEnergy
        rw [if_neg (by simp), if_neg (by omega)]
  have h18 := him 18 (by omega) (by omega)
  have h19 := him 19 (by omega) (by omega)
  have hsq := statusOf_qualified_of_imports (hourlyImportOf false nowHour l)
    (by rw [h18]; unfold zerohero_import_threshold; norm_num)
    (by rw [h19]; unfold zerohero_import_threshold; norm_num)
  rw [calcEarnings_eq_of_two_le false nowHour l h2]
  have hch : currentHourOf false nowHour = 24 := rfl
  refine ⟨h18, h19, ?_, ?_⟩
  · show some (statusOf false (currentHourOf false nowHour)
      (hourlyImportOf false nowHour l)) = some "qualified"
    rw [hch, hsq.1]
  · show creditOf false (currentHourOf false nowHour)
      (hourlyImportOf false nowHour l) = zerohero_day_credit
    rw [hch, hsq.2]

/-- Witness for C10: two samples in hour 10, past date. -/
theorem qualified_when_no_window_data_witness :
    hourlyImportOf false 7 [mkSample 36000 0 0 1, mkSample 36300 0 0 1] 18 = 0
  ∧ hourlyImportOf false 7 [mkSample 36000 0 0 1, mkSample 36300 0 0 1] 19 = 0
  ∧ (calcEarnings false 7 [mkSample 36000 0 0 1, mkSample 36300 0 0 1]).zh_status
      = some "qualified"
  ∧ (calcEarnings false 7 [mkSample 36000 0 0 1, mkSample 36300 0 0 1]).zh_credit
      = zerohero_day_credit :=
  qualified_when_no_window_data 7 [mkSample 36000 0 0 1, mkSample 36300 0 0 1]
    (by decide) (by decide)

/-!
C3: additivity of the reported earnings total.
-/

theorem abs_roundHalfEven_sub_le (q : ℚ) :
    |((roundHalfEven q : ℤ) : ℚ) - q| ≤ 1/2 := by
  have hfl : ((Rat.floor q : ℤ) : ℚ) ≤ q := by
    rw [ratFloor_eq_intFloor]; exact_mod_cast Int.floor_le q
  have hfu : q < ((Rat.floor q : ℤ) : ℚ) + 1 := by
    rw [ratFloor_eq_intFloor]; exact_mod_cast Int.lt_floor_add_one q
  simp only [roundHalfEven]
  split_ifs with h1 h2 h3
  · rw [abs_le]; constructor <;> linarith
  · rw [abs_le]; push_cast; constructor <;> linarith
  · rw [abs_le]; constructor <;> linarith
  · rw [abs_le]; push_cast; constructor <;> linarith

theorem abs_roundTo4_sub_le (q : ℚ) : |roundTo 4 q - q| ≤ 1/20000 := by
  unfold roundTo
  have h := abs_roundHalfEven_sub_le (q * (10 : ℚ) ^ 4)
  have he : roundTo 4 q - q
      = (((roundHalfEven (q * (10:ℚ)^4) : ℤ) : ℚ) - q * (10:ℚ)^4) / (10:ℚ)^4 := by
    unfold roundTo; field_simp; ring
  have : ((roundHalfEven (q * (10:ℚ)^4) : ℤ) : ℚ) / (10:ℚ)^4 - q
      = (((roundHalfEven (q * (10:ℚ)^4) : ℤ) : ℚ) - q * (10:ℚ)^4) / (10:ℚ)^4 := by
    field_simp; ring
  rw [this, abs_div, abs_of_pos (by norm_num : (0:ℚ) < (10:ℚ)^4)]
  rw [div_le_iff₀ (by norm_num : (0:ℚ) < (10:ℚ)^4)]
  calc |((roundHalfEven (q * (10:ℚ)^4) : ℤ) : ℚ) - q * (10:ℚ)^4|
      ≤ 1/2 := h
    _ ≤ 1/20000 * (10:ℚ)^4 := by norm_num

theorem hourlyExportOf_zero_of_lt_two (isToday : Bool) (nowHour : ℕ)
    (l : List Sample) (h : l.length < 2) (h' : ℕ) :
    hourlyExportOf isToday nowHour l h' = 0 := by
  unfold hourlyExportOf hourlyFlows
  rw [consecutivePairs_short _ (by rw [sortSamples_length]; omega)]
  rfl

theorem superEarningsOf_of_zero (isToday : Bool) (ch : ℕ) (hExp : ℕ → ℚ)
    (hz : ∀ h, hExp h = 0) : superEarningsOf isToday ch hExp = 0 := by
  unfold superEarningsOf superKwhOf
  rw [List.sum_eq_zero (by
    intro x hx
    rcases List.mem_map.mp hx with ⟨a, _, rfl⟩
    exact hz a)]
  norm_num [super_export_limit, super_export_rate]

theorem fitEarningsOf_of_zero (isToday : Bool) (ch : ℕ) (hExp : ℕ → ℚ)
    (hz : ∀ h, hExp h = 0) : fitEarningsOf isToday ch hExp = 0 := by
  unfold fitEarningsOf
  rw [List.sum_eq_zero]
  intro x hx
  rcases List.mem_map.mp hx with ⟨a, _, rfl⟩
  rw [hz a, zero_mul]

/-- C3 amended: before the final per-field rounding, the earnings total is
exactly `credit + premium + ordinary`; the reported `total_earnings` is the
4-decimal rounding of that exact sum, and it can differ from the sum of the
independently rounded reported components by at most 3/20000 (it does differ
in general, see the counterexample). -/
theorem total_earnings_sum_pre_rounding (isToday : Bool) (nowHour : ℕ)
    (l : List Sample) :
    (calcEarnings isToday nowHour l).total_earnings
      = roundTo 4 ((calcEarnings isToday nowHour l).zh_credit
        + superEarningsOf isToday (currentHourOf isToday nowHour)
            (hourlyExportOf isToday nowHour l)
        + fitEarningsOf isToday (currentHourOf isToday nowHour)
            (hourlyExportOf isToday nowHour l))
  ∧ |(calcEarnings isToday nowHour l).total_earnings
      - ((calcEarnings isToday nowHour l).zh_credit
        + (calcEarnings isToday nowHour l).super_earnings
        + (calcEarnings isToday nowHour l).fit_earnings)| ≤ 3/20000 := by
  by_cases hl : 2 ≤ l.length
  · rw [calcEarnings_eq_of_two_le isToday nowHour l hl]
    constructor
    · rfl
    · set c := creditOf isToday (currentHourOf isToday nowHour)
        (hourlyImportOf isToday nowHour l) with hc
      set sE := superEarningsOf isToday (currentHourOf isToday nowHour)
        (hourlyExportOf isToday nowHour l) with hsE
      set fE := fitEarningsOf isToday (currentHourOf isToday nowHour)
        (hourlyExportOf isToday nowHour l) with hfE
      have hA := abs_roundTo4_sub_le (c + sE + fE)
      have hB := abs_roundTo4_sub_le sE
      have hC := abs_roundTo4_sub_le fE
      have hd : roundTo 4 (c + sE + fE) - (c + roundTo 4 sE + roundTo 4 fE)
          = (roundTo 4 (c + sE + fE) - (c + sE + fE))
            + (sE - roundTo 4 sE) + (fE - roundTo 4 fE) := by ring
      simp only [hd]
      have t1 := abs_add ((roundTo 4 (c + sE + fE) - (c + sE + fE))
        + (sE - roundTo 4 sE)) (fE - roundTo 4 fE)
      have t2 := abs_add (roundTo 4 (c + sE + fE) - (c + sE + fE))
        (sE - roundTo 4 sE)
      have hB' : |sE - roundTo 4 sE| ≤ 1/20000 := by
        rw [abs_sub_comm]; exact hB
      have hC' : |fE - roundTo 4 fE| ≤ 1/20000 := by
        rw [abs_sub_comm]; exact hC
      linarith
  · have hl2 : l.length < 2 := by omega
    rw [calcEarnings_eq_of_lt_two isToday nowHour l hl2]
    have hzs := superEarningsOf_of_zero isToday (currentHourOf isToday nowHour)
      (hourlyExportOf isToday nowHour l)
      (hourlyExportOf_zero_of_lt_two isToday nowHour l hl2)
    have hzf := fitEarningsOf_of_zero isToday (currentHourOf isToday nowHour)
      (hourlyExportOf isToday nowHour l)
      (hourlyExportOf_zero_of_lt_two isToday nowHour l hl2)
    constructor
    · simp only [hzs, hzf]
      rw [show (0:ℚ) + 0 + 0 = 0 by ring, roundTo_zero]
    · norm_num

/-- Counterexample to C3: a past date qualifies for the $1 credit, exports
0.002 kWh in hour 16 (ordinary earnings 0.00006) and 0.0004 kWh in hour 18
(premium earnings 0.00006).  Both components round up to 0.0001 in the
report, while the total 1.00012 rounds to 1.0001, so the reported total
(1.0001) differs from the sum of the reported components (1.0002). -/
theorem rounded_total_differs_from_component_sum :
    (calcEarnings false 0
        [mkSample 57600 0 (1/50) 0, mkSample 57960 0 0 0,
          mkSample 64800 0 (1/250) 0, mkSample 65160 0 0 0]).total_earnings
      ≠ (calcEarnings false 0
          [mkSample 57600 0 (1/50) 0, mkSample 57960 0 0 0,
            mkSample 64800 0 (1/250) 0, mkSample 65160 0 0 0]).zh_credit
        + (calcEarnings false 0
            [mkSample 57600 0 (1/50) 0, mkSample 57960 0 0 0,
              mkSample 64800 0 (1/250) 0, mkSample 65160 0 0 0]).super_earnings
        + (calcEarnings false 0
            [mkSample 57600 0 (1/50) 0, mkSample 57960 0 0 0,
              mkSample 64800 0 (1/250) 0, mkSample 65160 0 0 0]).fit_earnings := by
  have hs : sortSamples
      [mkSample 57600 0 (1/50) 0, mkSample 57960 0 0 0,
        mkSample 64800 0 (1/250) 0, mkSample 65160 0 0 0]
    = [mkSample 57600 0 (1/50) 0, mkSample 57960 0 0 0,
        mkSample 64800 0 (1/250) 0, mkSample 65160 0 0 0] := rfl
  have hev : evaluatedHours false 24 = [18, 19] := rfl
  have hfh : fitHoursOf false 24
      = [0,1,2,3,4,5,6,7,8,9,10,11,12,13,14,15,16,17,20,21,22,23] := rfl
  have hch : currentHourOf false 0 = 24 := rfl
  have hcred : creditOf false 24 (hourlyImportOf false 0
      [mkSample 57600 0 (1/50) 0, mkSample 57960 0 0 0,
        mkSample 64800 0 (1/250) 0, mkSample 65160 0 0 0]) = 1 := by
    simp only [creditOf, windowCompleteOf, qualifiedOf, hev, hourlyImportOf,
      hourlyFlows, currentHourOf, hs]
    norm_num [consecutivePairs, List.zip_cons_cons, List.zip_nil_right,
      stepFlows, intervalSec, hourOf, mkSample, zerohero_import_threshold,
      zerohero_day_credit]
  have hsup : superEarningsOf false 24 (hourlyExportOf false 0
      [mkSample 57600 0 (1/50) 0, mkSample 57960 0 0 0,
        mkSample 64800 0 (1/250) 0, mkSample 65160 0 0 0]) = 3/50000 := by
    simp only [superEarningsOf, superKwhOf, hev, hourlyExportOf, hourlyFlows,
      currentHourOf, hs]
    norm_num [consecutivePairs, List.zip_cons_cons, List.zip_nil_right,
      stepFlows, intervalSec, hourOf, mkSample, min_def, super_export_limit,
      super_export_rate]
  have hfit : fitEarningsOf false 24 (hourlyExportOf false 0
      [mkSample 57600 0 (1/50) 0, mkSample 57960 0 0 0,
        mkSample 64800 0 (1/250) 0, mkSample 65160 0 0 0]) = 3/50000 := by
    simp only [fitEarningsOf, hfh, hourlyExportOf, hourlyFlows, currentHourOf, hs]
    norm_num [consecutivePairs, List.zip_cons_cons, List.zip_nil_right,
      stepFlows, intervalSec, hourOf, mkSample, fitPeriod]
  have hr1 : roundTo 4 (1 + 3/50000 + 3/50000 : ℚ) = 10001/10000 := by
    unfold roundTo
    rw [show ((1:ℚ) + 3/50000 + 3/50000) * (10:ℚ)^4 = 10001 + 1/5 by norm_num]
    rw [roundHalfEven_eq_of_lt 10001 _ (by norm_num) (by norm_num)]
    norm_num
  have hr2 : roundTo 4 (3/50000 : ℚ) = 1/10000 := by
    unfold roundTo
    rw [show ((3:ℚ)/50000) * (10:ℚ)^4 = 0 + 3/5 by norm_num]
    rw [roundHalfEven_eq_of_gt 0 _ (by norm_num) (by norm_num)]
    norm_num
  rw [calcEarnings_eq_of_two_le false 0 _ (by norm_num)]
  simp only [hch, hcred, hsup, hfit, hr2]
  rw [hr1]
  norm_num

/-- Counterexample to C8: the insufficient-data report (fewer than 2 samples)
has no `is_partial` key and no `current_hour` key, so not every earnings
report includes whether the date is partial and the cutoff hour. -/
theorem insufficient_report_lacks_cutoff_keys :
    (calcEarnings false 12 []).isPartialDay = none
  ∧ (calcEarnings false 12 []).current_hour = none
  ∧ (calcEarnings false 12 []).data_points = 0 := by
  rw [calcEarnings_eq_of_lt_two false 12 [] (by norm_num)]
  exact ⟨rfl, rfl, rfl⟩

/-- C8 amended: a report over at least 2 data points includes the partial-day
flag, the cutoff hour and the data-point count; the fewer-than-2-samples
report omits the partial-day flag and cutoff hour but still reports the count
and an explicit "Insufficient data" reason with every monetary and energy
field zero, rather than an error. -/
theorem earnings_report_metadata (isToday : Bool) (nowHour : ℕ)
    (l : List Sample) :
    (2 ≤ l.length →
        (calcEarnings isToday nowHour l).isPartialDay = some isToday
      ∧ (calcEarnings isToday nowHour l).current_hour
          = some (if isToday then some nowHour else none)
      ∧ (calcEarnings isToday nowHour l).data_points = l.length)
  ∧ (l.length < 2 →
        (calcEarnings isToday nowHour l).isPartialDay = none
      ∧ (calcEarnings isToday nowHour l).current_hour = none
      ∧ (calcEarnings isToday nowHour l).data_points = l.length
      ∧ (calcEarnings isToday nowHour l).zh_reason = some "Insufficient data"
      ∧ (calcEarnings isToday nowHour l).zh_qualified = false
      ∧ (calcEarnings isToday nowHour l).zh_credit = 0
      ∧ (calcEarnings isToday nowHour l).super_earnings = 0
      ∧ (calcEarnings isToday nowHour l).fit_earnings = 0
      ∧ (calcEarnings isToday nowHour l).total_earnings = 0
      ∧ (calcEarnings isToday nowHour l).total_export_kwh = 0
      ∧ (calcEarnings isToday nowHour l).super_export_kwh = 0
      ∧ (calcEarnings isToday nowHour l).fit_export_kwh = 0) := by
  constructor
  · intro h2
    rw [calcEarnings_eq_of_two_le isToday nowHour l h2]
    exact ⟨rfl, rfl, rfl⟩
  · intro hl
    rw [calcEarnings_eq_of_lt_two isToday nowHour l hl]
    exact ⟨rfl, rfl, rfl, rfl, rfl, rfl, rfl, rfl, rfl, rfl, rfl, rfl⟩

/-- Witness for C8 amended: the full branch at a 2-sample today list and the
insufficient branch at the empty list. -/
theorem earnings_report_metadata_witness :
    ((calcEarnings true 9 [mkSample 0 1 0 0, mkSample 300 1 0 0]).isPartialDay
        = some true
      ∧ (calcEarnings true 9 [mkSample 0 1 0 0, mkSample 300 1 0 0]).current_hour
          = some (if true then some 9 else none)
      ∧ (calcEarnings true 9 [mkSample 0 1 0 0, mkSample 300 1 0 0]).data_points
          = [mkSample 0 1 0 0, mkSample 300 1 0 0].length)
  ∧ ((calcEarnings true 9 (List.nil (α := Sample))).isPartialDay = none
      ∧ (calcEarnings true 9 []).current_hour = none
      ∧ (calcEarnings true 9 []).data_points = (List.nil (α := Sample)).length
      ∧ (calcEarnings true 9 []).zh_reason = some "Insufficient data"
      ∧ (calcEarnings true 9 []).zh_qualified = false
      ∧ (calcEarnings true 9 []).zh_credit = 0
      ∧ (calcEarnings true 9 []).super_earnings = 0
      ∧ (calcEarnings true 9 []).fit_earnings = 0
      ∧ (calcEarnings true 9 []).total_earnings = 0
      ∧ (calcEarnings true 9 []).total_export_kwh = 0
      ∧ (calcEarnings true 9 []).super_export_kwh = 0
      ∧ (calcEarnings true 9 []).fit_export_kwh = 0) :=
  ⟨(earnings_report_metadata true 9 [mkSample 0 1 0 0, mkSample 300 1 0 0]).1
      (by decide),
    (earnings_report_metadata true 9 []).2 (by decide)⟩

/-!
C6: date-range validation of the range endpoints.
-/

/-- Counterexample to C6: a range of 91 calendar days inclusive
(`end - start = 90`) passes validation and both range endpoints perform the
per-day aggregation; only `end - start > 90` (a span of 92 or more days) is
rejected. -/
theorem range_span_91_days_accepted :
    ((90 : ℤ) - 0) + 1 = 91
  ∧ validateRange 0 90 = none
  ∧ dailyRange 0 90 (fun _ => []) =
      Except.ok (List.replicate 91 (calculateDailyTotals []))
  ∧ validateRange 0 91 = some "Date range cannot exceed 90 days" :=
  ⟨by norm_num, rfl, rfl, rfl⟩

/-- C6 amended: a request whose end date precedes its start date, or whose
difference `end - start` exceeds 90 days (spanning 92 or more days inclusive),
is rejected by both range endpoints before any aggregation work occurs; a
91-day inclusive span is the maximum accepted. -/
theorem range_validation_rejects (s e today : ℤ) (nowHour : ℕ)
    (data : ℤ → List Sample) (h : e < s ∨ 90 < e - s) :
    dailyRange s e data
      = Except.error (if e < s then "end_date cannot be before start_date"
          else "Date range cannot exceed 90 days")
  ∧ earningsRange s e today nowHour data
      = Except.error (if e < s then "end_date cannot be before start_date"
          else "Date range cannot exceed 90 days") := by
  have hv : validateRange s e
      = some (if e < s then "end_date cannot be before start_date"
          else "Date range cannot exceed 90 days") := by
    unfold validateRange
    by_cases h2 : e < s
    · rw [if_pos h2, if_pos h2]
    · rcases h with h | h
      · exact absurd h h2
      · rw [if_neg h2, if_pos h, if_neg h2]
  constructor
  · unfold dailyRange
    rw [hv]
  · unfold earningsRange
    rw [hv]

/-- Witness for C6 amended: a 93-day span (difference 92) is rejected. -/
theorem range_validation_rejects_witness :
    dailyRange 0 92 (fun _ => [])
      = Except.error (if (92 : ℤ) < 0 then "end_date cannot be before start_date"
          else "Date range cannot exceed 90 days")
  ∧ earningsRange 0 92 0 0 (fun _ => [])
      = Except.error (if (92 : ℤ) < 0 then "end_date cannot be before start_date"
          else "Date range cannot exceed 90 days") :=
  range_validation_rejects 0 92 0 0 (fun _ => []) (Or.inr (by norm_num))

/-!
C7: reading a partition row back.
-/

theorem parseNum_of_not_bad (f : NumField) (h : isBadField f = false) :
    parseNum f = some (fieldVal f) := by
  cases f <;> simp_all [parseNum, fieldVal, isBadField]

theorem parseNum_of_bad (f : NumField) (h : isBadField f = true) :
    parseNum f = none := by
  cases f <;> simp_all [parseNum, isBadField]

/-- Counterexample to C7: a row whose `solar` cell is present but unparsable
is skipped entirely (`float()` raises `ValueError`, caught by the
`continue`), not kept with the field read as 0. -/
theorem unparsable_field_skips_row :
    readRow { timestamp := TsField.valid 100, solar := NumField.bad
              load := NumField.num 0, grid_export := NumField.num 0
              grid_import := NumField.num 0, battery_charge := NumField.num 0
              battery_discharge := NumField.num 0, battery_net := NumField.num 0
              soc_inv := NumField.num 0, soc_bms := NumField.num 0 } = none := rfl

/-- C7 amended: for a row with a parsable timestamp, a numeric column that is
missing entirely (absent from the header) is read as 0 and the row still
yields a Sample, but a row containing any present-but-unparsable numeric
field is skipped entirely. -/
theorem read_row_defaults_and_skips (r : CsvRow) (t : ℕ)
    (ht : r.timestamp = TsField.valid t) :
    (rowHasBad r = false → readRow r = some (rowSample t r))
  ∧ (rowHasBad r = true → readRow r = none) := by
  constructor
  · intro hnb
    simp only [rowHasBad, Bool.or_eq_false_iff] at hnb
    obtain ⟨⟨⟨⟨⟨⟨⟨⟨h1, h2⟩, h3⟩, h4⟩, h5⟩, h6⟩, h7⟩, h8⟩, h9⟩ := hnb
    unfold readRow
    rw [ht, parseNum_of_not_bad _ h1, parseNum_of_not_bad _ h2,
      parseNum_of_not_bad _ h3, parseNum_of_not_bad _ h4,
      parseNum_of_not_bad _ h5, parseNum_of_not_bad _ h6,
      parseNum_of_not_bad _ h7, parseNum_of_not_bad _ h8,
      parseNum_of_not_bad _ h9]
    rfl
  · intro hb
    unfold readRow
    rw [ht]
    cases h1 : parseNum r.solar with
    | none => rfl
    | some v1 =>
    cases h2 : parseNum r.load with
    | none => rfl
    | some v2 =>
    cases h3 : parseNum r.grid_export with
    | none => rfl
    | some v3 =>
    cases h4 : parseNum r.grid_import with
    | none => rfl
    | some v4 =>
    cases h5 : parseNum r.battery_charge with
    | none => rfl
    | some v5 =>
    cases h6 : parseNum r.battery_discharge with
    | none => rfl
    | some v6 =>
    cases h7 : parseNum r.battery_net with
    | none => rfl
    | some v7 =>
    cases h8 : parseNum r.soc_inv with
    | none => rfl
    | some v8 =>
    cases h9 : parseNum r.soc_bms with
    | none => rfl
    | some v9 =>
    exfalso
    simp only [rowHasBad, Bool.or_eq_true] at hb
    rcases hb with ⟨⟨⟨⟨⟨⟨⟨hb | hb⟩ | hb⟩ | hb⟩ | hb⟩ | hb⟩ | hb⟩ | hb⟩ | hb <;>
      simp_all [parseNum_of_bad]

/-!
C9: battery values produced by the poll cycle.
-/

theorem roundHalfEven_eq_mid (n : ℤ) (q : ℚ) (h : q = (n : ℚ) + 1/2) :
    roundHalfEven q = if n % 2 = 0 then n else n + 1 := by
  have hf : Rat.floor q = n := by
    rw [ratFloor_eq_intFloor, Int.floor_eq_iff]
    refine ⟨by linarith, by linarith⟩
  simp only [roundHalfEven, hf]
  rw [if_neg (by linarith), if_neg (by linarith)]

theorem roundHalfEven_neg (q : ℚ) : roundHalfEven (-q) = -(roundHalfEven q) := by
  have h1 : ((⌊q⌋ : ℤ) : ℚ) ≤ q := Int.floor_le q
  have h2 : q < ((⌊q⌋ : ℤ) : ℚ) + 1 := Int.lt_floor_add_one q
  rcases lt_trichotomy q (((⌊q⌋ : ℤ) : ℚ) + 1/2) with h | h | h
  · rcases eq_or_lt_of_le h1 with h0 | h0
    · rw [roundHalfEven_eq_of_lt ⌊q⌋ q h1 h,
        roundHalfEven_eq_of_lt (-⌊q⌋) (-q) (by push_cast; linarith)
          (by push_cast; linarith)]
    · rw [roundHalfEven_eq_of_lt ⌊q⌋ q h1 h,
        roundHalfEven_eq_of_gt (-⌊q⌋ - 1) (-q) (by push_cast; linarith)
          (by push_cast; linarith)]
      ring
  · rw [roundHalfEven_eq_mid ⌊q⌋ q h,
      roundHalfEven_eq_mid (-⌊q⌋ - 1) (-q) (by push_cast; linarith)]
    by_cases hpar : ⌊q⌋ % 2 = 0
    · rw [if_pos hpar, if_neg (by omega)]
      ring
    · rw [if_neg hpar, if_pos (by omega)]
      ring
  · rw [roundHalfEven_eq_of_gt ⌊q⌋ q h h2,
      roundHalfEven_eq_of_lt (-⌊q⌋ - 1) (-q) (by push_cast; linarith)
        (by push_cast; linarith)]
    ring

theorem roundTo_neg (d : ℕ) (q : ℚ) : roundTo d (-q) = -(roundTo d q) := by
  unfold roundTo
  rw [show -q * (10:ℚ)^d = -(q * (10:ℚ)^d) by ring, roundHalfEven_neg]
  push_cast
  ring

theorem roundHalfEven_nonneg (q : ℚ) (h : 0 ≤ q) : 0 ≤ roundHalfEven q := by
  have hf : 0 ≤ Rat.floor q := by
    rw [ratFloor_eq_intFloor]
    exact Int.floor_nonneg.mpr h
  simp only [roundHalfEven]
  split_ifs <;> omega

theorem roundTo_nonneg (d : ℕ) (q : ℚ) (h : 0 ≤ q) : 0 ≤ roundTo d q := by
  unfold roundTo
  apply div_nonneg _ (by positivity)
  exact_mod_cast roundHalfEven_nonneg _ (by positivity)

/-- C9: every Sample built by the poll cycle has non-negative battery charge
and discharge, never both positive (their product is 0), and its
`battery_net` equals `battery_charge - battery_discharge` — all preserved by
the final 3-decimal rounding because round-half-even is odd-symmetric. -/
theorem poll_battery_invariants (ts : ℕ) (pv gi ge : Option ℕ)
    (ld : Option ℤ) (si sb : Option ℕ) :
    0 ≤ (pollSample ts pv gi ge ld si sb).battery_charge
  ∧ 0 ≤ (pollSample ts pv gi ge ld si sb).battery_discharge
  ∧ (pollSample ts pv gi ge ld si sb).battery_charge
      * (pollSample ts pv gi ge ld si sb).battery_discharge = 0
  ∧ (pollSample ts pv gi ge ld si sb).battery_net
      = (pollSample ts pv gi ge ld si sb).battery_charge
        - (pollSample ts pv gi ge ld si sb).battery_discharge := by
  unfold pollSample
  set pvq : ℚ := match pv with | some v => (v : ℚ) / 10 / 1000 | none => 0 with hpv
  set giq : ℚ := match gi with | some v => (v : ℚ) / 10 / 1000 | none => 0 with hgi
  set geq : ℚ := match ge with | some v => (v : ℚ) / 10 / 1000 | none => 0 with hge
  set ldq : ℚ := match ld with | some v => (v : ℚ) / 10 / 1000 | none => 0 with hld
  simp only
  rcases le_total 0 (pvq + giq - geq - ldq) with hb | hb
  · rw [max_eq_left hb, max_eq_right (by linarith), roundTo_zero]
    refine ⟨roundTo_nonneg 3 _ hb, le_refl 0, mul_zero _, (sub_zero _).symm⟩
  · rw [max_eq_right hb, max_eq_left (by linarith), roundTo_zero]
    refine ⟨le_refl 0, roundTo_nonneg 3 _ (by linarith), zero_mul _, ?_⟩
    have hneg : roundTo 3 (pvq + giq - geq - ldq)
        = -(roundTo 3 (-(pvq + giq - geq - ldq))) := by
      conv_lhs =>
        rw [show pvq + giq - geq - ldq = -(-(pvq + giq - geq - ldq)) by ring]
      rw [roundTo_neg]
    rw [hneg]
    ring

/-- Witness for C7 amended: a row whose `battery_net` column is missing. -/
theorem read_row_defaults_and_skips_witness :
    (rowHasBad rowAbsentNet = false →
      readRow rowAbsentNet = some (rowSample 100 rowAbsentNet))
  ∧ (rowHasBad rowAbsentNet = true → readRow rowAbsentNet = none) :=
  read_row_defaults_and_skips rowAbsentNet 100 rfl
